import Mathlib

/-!
# caddy-opentracing: configuration translation and span lifecycle middleware

A shallow embedding of `config.go`, `response_writer.go` and `tracer.go`.

* Go pointers to nested configuration blocks are `Option`s (`nil` is `none`).
* Go `int` is a 64-bit two's-complement integer: values are `Int`s and the one
  addition the code performs (`w.size += size`) is wrapped by `wrapInt`.
* `time.Duration` is an `int64` count of nanoseconds, carried as an `Int`.
* The calls a request makes on the tracer, on the span and on the downstream
  handler are recorded, in program order, in a list of `Event`s.
-/

namespace CaddyOpentracing

/-! ## Basic Go values -/

/-- Go `error` values that are not `nil`, identified by their message. -/
abbrev GoError := String

/-- Go `time.Duration`: a signed count of nanoseconds. -/
abbrev Duration := Int

/-- Go `float64`, carried by its IEEE-754 bit pattern. The code only copies it. -/
structure float64 where
  bits : Nat
  deriving DecidableEq, Repr

/-- Go `map[string]string`; `none` is the nil map. The code only copies it. -/
abbrev StringMap := Option (List (String × String))

/-- Go `[]byte`. -/
abbrev Bytes := List Nat

/-- Wrap-around of Go `int` (64-bit two's complement) arithmetic. -/
def wrapInt (x : Int) : Int := (x + 2 ^ 63) % 2 ^ 64 - 2 ^ 63

/-- The values a Go `int` can hold. -/
def InIntRange (x : Int) : Prop := -(2 ^ 63) ≤ x ∧ x < 2 ^ 63

instance (x : Int) : Decidable (InIntRange x) := by
  unfold InIntRange; infer_instance

/-! ## config.go: the module's configuration -/

/-- `HeadersConfig` of config.go. -/
structure HeadersConfig where
  JaegerDebugHeader : String := ""
  JaegerBaggageHeader : String := ""
  TraceContextHeaderName : String := ""
  TraceBaggageHeaderPrefix : String := ""
  deriving DecidableEq, Repr

/-- `SamplerConfig` of config.go (`Type_` is the Go field `Type`). -/
structure SamplerConfig where
  Type_ : String := ""
  Param : float64 := ⟨0⟩
  SamplingServerURL : String := ""
  SamplingRefreshInterval : Duration := 0
  MaxOperations : Int := 0
  OperationNameLateBinding : Bool := false
  deriving DecidableEq, Repr

/-- `ReporterConfig` of config.go. -/
structure ReporterConfig where
  QueueSize : Int := 0
  BufferFlushInterval : Duration := 0
  LogSpans : Bool := false
  LocalAgentHostPort : String := ""
  DisableAttemptReconnecting : Bool := false
  AttemptReconnectInterval : Duration := 0
  CollectorEndpoint : String := ""
  User : String := ""
  Password : String := ""
  HTTPHeaders : StringMap := none
  deriving DecidableEq, Repr

/-- `BaggageRestrictionsConfig` of config.go. -/
structure BaggageRestrictionsConfig where
  DenyBaggageOnInitializationFailure : Bool := false
  HostPort : String := ""
  RefreshInterval : Duration := 0
  deriving DecidableEq, Repr

/-- `ThrottlerConfig` of config.go. -/
structure ThrottlerConfig where
  HostPort : String := ""
  RefreshInterval : Duration := 0
  SynchronousInitialization : Bool := false
  deriving DecidableEq, Repr

/-- `Config` of config.go. -/
structure Config where
  ServiceName : String := ""
  Disabled : Bool := false
  RPCMetrics : Bool := false
  Gen128Bit : Bool := false
  Sampler : Option SamplerConfig := none
  Reporter : Option ReporterConfig := none
  Headers : Option HeadersConfig := none
  BaggageRestrictions : Option BaggageRestrictionsConfig := none
  Throttler : Option ThrottlerConfig := none
  deriving DecidableEq, Repr

/-! ## The backend's configuration types

The record types of the tracing client library that `ToTracingConfig` builds.
Only the fields the composite literals in config.go name are listed; every
other field of the library records keeps its zero value. -/

namespace jaeger

/-- `jaeger.HeadersConfig` of the client library. -/
structure HeadersConfig where
  JaegerDebugHeader : String := ""
  JaegerBaggageHeader : String := ""
  TraceContextHeaderName : String := ""
  TraceBaggageHeaderPrefix : String := ""
  deriving DecidableEq, Repr

/-- `config.SamplerConfig` of the client library. -/
structure SamplerConfig where
  Type_ : String := ""
  Param : float64 := ⟨0⟩
  SamplingServerURL : String := ""
  SamplingRefreshInterval : Duration := 0
  MaxOperations : Int := 0
  OperationNameLateBinding : Bool := false
  deriving DecidableEq, Repr

/-- `config.ReporterConfig` of the client library. -/
structure ReporterConfig where
  QueueSize : Int := 0
  BufferFlushInterval : Duration := 0
  LogSpans : Bool := false
  LocalAgentHostPort : String := ""
  DisableAttemptReconnecting : Bool := false
  AttemptReconnectInterval : Duration := 0
  CollectorEndpoint : String := ""
  User : String := ""
  Password : String := ""
  HTTPHeaders : StringMap := none
  deriving DecidableEq, Repr

/-- `config.BaggageRestrictionsConfig` of the client library. -/
structure BaggageRestrictionsConfig where
  DenyBaggageOnInitializationFailure : Bool := false
  HostPort : String := ""
  RefreshInterval : Duration := 0
  deriving DecidableEq, Repr

/-- `config.ThrottlerConfig` of the client library. -/
structure ThrottlerConfig where
  HostPort : String := ""
  RefreshInterval : Duration := 0
  SynchronousInitialization : Bool := false
  deriving DecidableEq, Repr

/-- `config.Configuration` of the client library. `Tags` is a list of
key/value pairs. -/
structure Configuration where
  ServiceName : String := ""
  Disabled : Bool := false
  RPCMetrics : Bool := false
  Gen128Bit : Bool := false
  Tags : List (String × String) := []
  Sampler : Option SamplerConfig := none
  Reporter : Option ReporterConfig := none
  Headers : Option HeadersConfig := none
  BaggageRestrictions : Option BaggageRestrictionsConfig := none
  Throttler : Option ThrottlerConfig := none
  deriving DecidableEq, Repr

end jaeger

/-- `Config.ToTracingConfig` of config.go: the literal sets `Disabled` and
`Gen128Bit` to `false`, then each nested block that is not nil is copied
field by field. -/
def Config.ToTracingConfig (c : Config) : jaeger.Configuration :=
  let ret : jaeger.Configuration :=
    { ServiceName := c.ServiceName
      Disabled := false
      RPCMetrics := c.RPCMetrics
      Gen128Bit := false
      Tags := [] }
  let ret : jaeger.Configuration :=
    match c.Sampler with
    | some s =>
      { ret with
        Sampler := some
          { Type_ := s.Type_
            Param := s.Param
            SamplingServerURL := s.SamplingServerURL
            SamplingRefreshInterval := s.SamplingRefreshInterval
            MaxOperations := s.MaxOperations
            OperationNameLateBinding := s.OperationNameLateBinding } }
    | none => ret
  let ret : jaeger.Configuration :=
    match c.Reporter with
    | some r =>
      { ret with
        Reporter := some
          { QueueSize := r.QueueSize
            BufferFlushInterval := r.BufferFlushInterval
            LogSpans := r.LogSpans
            LocalAgentHostPort := r.LocalAgentHostPort
            DisableAttemptReconnecting := r.DisableAttemptReconnecting
            AttemptReconnectInterval := r.AttemptReconnectInterval
            CollectorEndpoint := r.CollectorEndpoint
            User := r.User
            Password := r.Password
            HTTPHeaders := r.HTTPHeaders } }
    | none => ret
  let ret : jaeger.Configuration :=
    match c.Headers with
    | some h =>
      { ret with
        Headers := some
          { JaegerDebugHeader := h.JaegerDebugHeader
            JaegerBaggageHeader := h.JaegerBaggageHeader
            TraceContextHeaderName := h.TraceContextHeaderName
            TraceBaggageHeaderPrefix := h.TraceBaggageHeaderPrefix } }
    | none => ret
  let ret : jaeger.Configuration :=
    match c.BaggageRestrictions with
    | some b =>
      { ret with
        BaggageRestrictions := some
          { DenyBaggageOnInitializationFailure := b.DenyBaggageOnInitializationFailure
            HostPort := b.HostPort
            RefreshInterval := b.RefreshInterval } }
    | none => ret
  let ret : jaeger.Configuration :=
    match c.Throttler with
    | some t =>
      { ret with
        Throttler := some
          { HostPort := t.HostPort
            RefreshInterval := t.RefreshInterval
            SynchronousInitialization := t.SynchronousInitialization } }
    | none => ret
  ret

/-! ## response_writer.go: the response metrics wrapper -/

/-- A call received by the underlying `http.ResponseWriter`. -/
inductive Call where
  | WriteHeader (status : Int)
  | Write (b : Bytes)
  deriving DecidableEq, Repr

/-- The underlying `http.ResponseWriter`. Its state is the list of the calls it
has received so far, oldest first; `Write` gives the `(count, error)` pair its
`Write` method returns for a slice in a given state (`none` is a nil error). -/
structure Sink where
  Write : List Call → Bytes → Int × Option GoError

/-- `metricsTracker` of response_writer.go. The embedded `ResponseWriter` is
carried by the calls it has received. -/
structure metricsTracker where
  ResponseWriter : List Call
  status : Int
  size : Int
  deriving DecidableEq, Repr

/-- `metricsTracker.WriteHeader`: record the status, then forward the call. -/
def metricsTracker.WriteHeader (w : metricsTracker) (status : Int) : metricsTracker :=
  { w with
    status := status
    ResponseWriter := w.ResponseWriter ++ [Call.WriteHeader status] }

/-- `metricsTracker.Write`: forward the slice, add the returned count to `size`
(a Go `int` addition), return what the underlying writer returned. -/
def metricsTracker.Write (sink : Sink) (w : metricsTracker) (b : Bytes) :
    (Int × Option GoError) × metricsTracker :=
  let res := sink.Write w.ResponseWriter b
  (res,
    { w with
      ResponseWriter := w.ResponseWriter ++ [Call.Write b]
      size := wrapInt (w.size + res.1) })

/-- A sequence of `Write` calls made on a `metricsTracker`, one per slice, in
order: the results of the calls and the tracker afterwards. -/
def metricsTracker.WriteAll (sink : Sink) (w : metricsTracker) :
    List Bytes → List (Int × Option GoError) × metricsTracker
  | [] => ([], w)
  | b :: bs =>
    let step := w.Write sink b
    let rest := metricsTracker.WriteAll sink step.2 bs
    (step.1 :: rest.1, rest.2)

/-- The same sequence of `Write` calls made on the underlying writer itself:
the results of the calls and the calls the writer has received afterwards. -/
def Sink.WriteAll (sink : Sink) (w : List Call) :
    List Bytes → List (Int × Option GoError) × List Call
  | [] => ([], w)
  | b :: bs =>
    let rest := Sink.WriteAll sink (w ++ [Call.Write b]) bs
    (sink.Write w b :: rest.1, rest.2)

/-! ## tracer.go: the span lifecycle middleware -/

/-- `defaultComponentName` of tracer.go. -/
def defaultComponentName : String := "caddy.module.opentracing"

/-- `defaultServiceName` of tracer.go. -/
def defaultServiceName : String := "caddy"

/-- `responseSizeKey` of tracer.go. -/
def responseSizeKey : String := "http.response_size"

/-- `http.StatusInternalServerError`. -/
def StatusInternalServerError : Int := 500

namespace ext

/-- Tag key of `ext.HTTPMethod`. -/
def HTTPMethod : String := "http.method"

/-- Tag key of `ext.HTTPUrl`. -/
def HTTPUrl : String := "http.url"

/-- Tag key of `ext.Component`. -/
def Component : String := "component"

/-- Tag key of `ext.HTTPStatusCode`. -/
def HTTPStatusCode : String := "http.status_code"

/-- Tag key of `ext.Error`. -/
def Error : String := "error"

end ext

/-- The headers of a request. -/
abbrev Header := List (String × List String)

/-- Go `url.URL`, as far as the middleware reads it: `Path`, and `full`, the
value of `u.String()`. -/
structure URL where
  Path : String
  full : String
  deriving DecidableEq, Repr

/-- A span context extracted from a carrier. -/
structure SpanContext where
  id : String
  deriving DecidableEq, Repr

/-- The span `StartSpan` returns, identified by the arguments of the call:
the operation name and the parent context of `ext.RPCServerOption`. -/
structure Span where
  operationName : String
  parent : Option SpanContext
  deriving DecidableEq, Repr

/-- Go `http.Request`, as far as the middleware reads it; `ctxSpan` is the
span stored in the request's context. -/
structure Request where
  Method : String
  URL : URL
  Header : Header
  ctxSpan : Option Span
  deriving DecidableEq, Repr

/-- The value of a tag written on a span. -/
inductive TagValue where
  | string (s : String)
  | uint16 (n : Nat)
  | int (n : Int)
  | bool (b : Bool)
  deriving DecidableEq, Repr

/-- A call the span observer callback makes on the span it is given. -/
inductive SpanCall where
  | SetTag (key : String) (value : TagValue)
  | Finish
  deriving DecidableEq, Repr

/-- The calls `ServeHTTP` itself makes, in program order. `spanObserver`
carries what the callback did with the span; `next` is the call of
`next.ServeHTTP`, with whether the writer passed is the `metricsTracker`
(`true`) or the original writer (`false`), and the request passed. -/
inductive Event where
  | Extract (carrier : Header)
  | StartSpan (operationName : String) (parent : Option SpanContext)
  | SetTag (key : String) (value : TagValue)
  | spanObserver (calls : List SpanCall)
  | next (wrapped : Bool) (r : Request)
  | Finish
  deriving DecidableEq, Repr

/-- The tracer, as far as `ServeHTTP` reads its results: `Extract` gives the
context found in the carrier, `none` when it returns an error (the error is
dropped by `ctx, _ := tr.Extract(...)`). -/
structure Tracer where
  Extract : Header → Option SpanContext

/-- Go `io.Closer`. -/
abbrev Closer := Unit

/-- `Options` of tracer.go. -/
structure Options where
  opNameFunc : Request → String
  spanFilter : Request → Bool
  spanObserver : Span → Request → List SpanCall
  urlTagFunc : URL → String
  componentName : String

/-- `Opentracing` of tracer.go. -/
structure Opentracing where
  Config : Config
  tr : Tracer
  opts : Options
  closer : Closer

/-- A downstream handler that returns: what it does with the response writer
it is given, each step depending on what the writer returned before, and the
error it returns at the end (`none` is nil). -/
inductive Handler where
  | ret (err : Option GoError)
  | WriteHeader (status : Int) (k : Handler)
  | Write (b : Bytes) (k : Int → Option GoError → Handler)

/-- Run a handler on the underlying writer itself. -/
def Handler.serveRaw (sink : Sink) : Handler → List Call → Option GoError × List Call
  | .ret err, w => (err, w)
  | .WriteHeader status k, w => k.serveRaw sink (w ++ [Call.WriteHeader status])
  | .Write b k, w =>
    let res := sink.Write w b
    (k res.1 res.2).serveRaw sink (w ++ [Call.Write b])

/-- Run a handler on a `metricsTracker`. -/
def Handler.serveTracked (sink : Sink) : Handler → metricsTracker → Option GoError × metricsTracker
  | .ret err, mt => (err, mt)
  | .WriteHeader status k, mt => k.serveTracked sink (mt.WriteHeader status)
  | .Write b k, mt =>
    let step := mt.Write sink b
    (k step.1.1 step.1.2).serveTracked sink step.2

/-- What one call of `ServeHTTP` did: the error it returned, the calls it
made, and the calls the underlying writer has received afterwards. -/
structure Outcome where
  err : Option GoError
  trace : List Event
  w : List Call
  deriving DecidableEq, Repr

/-- The tags `ServeHTTP` writes after `next.ServeHTTP` has returned
(tracer.go, lines 107-115); `uint16(mt.status)` keeps the low 16 bits. -/
def postTags (mt : metricsTracker) : List Event :=
  (if mt.status > 0 then
    [Event.SetTag ext.HTTPStatusCode (TagValue.uint16 (mt.status % 65536).toNat)] else []) ++
  (if mt.size > 0 then [Event.SetTag responseSizeKey (TagValue.int mt.size)] else []) ++
  (if mt.status ≥ StatusInternalServerError then
    [Event.SetTag ext.Error (TagValue.bool true)] else [])

/-- `Opentracing.ServeHTTP` of tracer.go, on the original writer `w` (the calls
it has received so far) and the request `r`. -/
def Opentracing.ServeHTTP (tracing : Opentracing) (sink : Sink) (w : List Call)
    (r : Request) (next : Request → Handler) : Outcome :=
  let tr := tracing.tr
  let opts := tracing.opts
  let componentName :=
    if opts.componentName = "" then defaultComponentName else opts.componentName
  if !opts.spanFilter r then
    let res := (next r).serveRaw sink w
    { err := res.1, trace := [Event.next false r], w := res.2 }
  else
    let ctx := tr.Extract r.Header
    let sp : Span := { operationName := opts.opNameFunc r, parent := ctx }
    let r1 : Request := { r with ctxSpan := some sp }
    let mt : metricsTracker := { ResponseWriter := w, status := 0, size := 0 }
    let res := (next r1).serveTracked sink mt
    let err := res.1
    let mt := res.2
    { err := err
      trace :=
        [ Event.Extract r.Header,
          Event.StartSpan (opts.opNameFunc r) ctx,
          Event.SetTag ext.HTTPMethod (TagValue.string r.Method),
          Event.SetTag ext.HTTPUrl (TagValue.string (opts.urlTagFunc r.URL)),
          Event.SetTag ext.Component (TagValue.string componentName),
          Event.spanObserver (opts.spanObserver sp r),
          Event.next true r1 ] ++ postTags mt ++ [Event.Finish]
      w := mt.ResponseWriter }

/-- The two operations of the tracing client library that `Provision` calls:
`(*Configuration).FromEnv` and `Configuration.New`. -/
structure Backend where
  FromEnv : jaeger.Configuration → Except GoError jaeger.Configuration
  New : jaeger.Configuration → String → Except GoError (Tracer × Closer)

/-- The `Options` that `Provision` installs (tracer.go, lines 62-71). -/
def provisionedOptions : Options :=
  { opNameFunc := fun r => r.Method ++ " " ++ r.URL.Path
    spanFilter := fun _ => true
    spanObserver := fun _ _ => []
    urlTagFunc := fun u => u.full
    componentName := "" }

/-- `Opentracing.Provision` of tracer.go, on a module whose `Config` is `c`. -/
def Provision (lib : Backend) (c : Config) : Except GoError Opentracing :=
  match lib.FromEnv c.ToTracingConfig with
  | .error err => .error err
  | .ok cfg =>
    let cfg : jaeger.Configuration :=
      if cfg.ServiceName = "" then { cfg with ServiceName := defaultServiceName } else cfg
    match lib.New cfg c.ServiceName with
    | .error err => .error err
    | .ok (tr, closer) =>
      .ok { Config := c, tr := tr, opts := provisionedOptions, closer := closer }

/-! ## Reading an outcome -/

/-- The request `ServeHTTP` passes to `next` when it traces (tracer.go,
line 103): the request with the started span in its context. -/
def tracedRequest (tracing : Opentracing) (r : Request) : Request :=
  { r with
    ctxSpan := some
      { operationName := tracing.opts.opNameFunc r
        parent := tracing.tr.Extract r.Header } }

/-- What `next.ServeHTTP(mt, r)` does in a traced request (tracer.go,
lines 104-106): the error it returns and the `metricsTracker` afterwards,
whose `status` and `size` are the observed status and byte count. -/
def delegated (tracing : Opentracing) (sink : Sink) (w : List Call) (r : Request)
    (next : Request → Handler) : Option GoError × metricsTracker :=
  (next (tracedRequest tracing r)).serveTracked sink
    { ResponseWriter := w, status := 0, size := 0 }

/-- Whether an event is a `StartSpan` call. -/
def Event.isStartSpan : Event → Bool
  | .StartSpan _ _ => true
  | _ => false

/-- Whether an event is a `Finish` call. -/
def Event.isFinish : Event → Bool
  | .Finish => true
  | _ => false

/-- Whether an event is a call on the tracer or on the span. -/
def Event.isTracing : Event → Bool
  | .next _ _ => false
  | _ => true

/-- Whether an event writes the HTTP-status tag. -/
def Event.isStatusTag : Event → Bool
  | .SetTag key _ => key == ext.HTTPStatusCode
  | _ => false

/-- The status code of a `WriteHeader` call. -/
def Call.status? : Call → Option Int
  | .WriteHeader status => some status
  | .Write _ => none

/-- The calls a handler makes on the `metricsTracker` it is given, in order. -/
def Handler.callsTracked (sink : Sink) : Handler → metricsTracker → List Call
  | .ret _, _ => []
  | .WriteHeader status k, mt =>
    Call.WriteHeader status :: k.callsTracked sink (mt.WriteHeader status)
  | .Write b k, mt =>
    let step := mt.Write sink b
    Call.Write b :: (k step.1.1 step.1.2).callsTracked sink step.2

/-! ## Concrete inputs -/

/-- A configuration that asks for the no-op tracer. -/
def disabledConfig : Config := { ServiceName := "svc-a", Disabled := true }

/-- A configuration that sets both pass-through feature flags. -/
def flagsConfig : Config := { ServiceName := "svc-a", RPCMetrics := true, Gen128Bit := true }

/-- A tracer that finds no context in any carrier. -/
def rootTracer : Tracer := { Extract := fun _ => none }

/-- An underlying writer that accepts every slice whole. -/
def wholeSink : Sink := { Write := fun _ b => ((b.length : Int), none) }

/-- An underlying writer that accepts two bytes of every slice and fails. -/
def shortSink : Sink := { Write := fun _ _ => (2, some "short write") }

/-- A module as `Provision` leaves it: every request is traced. -/
def tracingAll : Opentracing :=
  { Config := {}, tr := rootTracer, opts := provisionedOptions, closer := () }

/-- A module whose span filter rejects every request. -/
def tracingNone : Opentracing :=
  { Config := {}
    tr := rootTracer
    opts := { provisionedOptions with spanFilter := fun _ => false }
    closer := () }

/-- A request `GET /items`. -/
def getItems : Request :=
  { Method := "GET"
    URL := { Path := "/items", full := "http://example.test/items?page=2" }
    Header := []
    ctxSpan := none }

/-- A handler that writes nothing and returns an error. -/
def failingHandler : Request → Handler :=
  fun _ => Handler.ret (some "upstream unreachable")

/-- A handler that answers 200 with a three-byte body. -/
def okHandler : Request → Handler :=
  fun _ => Handler.WriteHeader 200 (Handler.Write [104, 105, 10] (fun _ _ => Handler.ret none))

/-- A handler that answers 503 and returns an error. -/
def unavailableHandler : Request → Handler :=
  fun _ => Handler.WriteHeader 503
    (Handler.Write [33] (fun _ _ => Handler.ret (some "unavailable")))

/-- A tracer constructor that, as the client library does, refuses a
configuration without a service name. -/
def namedNewTracer (cfg : jaeger.Configuration) : Except GoError (Tracer × Closer) :=
  if cfg.ServiceName = "" then .error "no service name provided" else .ok (rootTracer, ())

/-- A client library in an environment whose service name is `envName`, empty
when the environment sets none: `FromEnv` puts a non-empty `envName` into the
configuration, and `New` constructs the tracer for the name it is given, or
for the configuration's name when given none. -/
def envBackend (envName : String) : Backend :=
  { FromEnv := fun cfg =>
      .ok (if envName = "" then cfg else { cfg with ServiceName := envName })
    New := fun cfg serviceName =>
      namedNewTracer
        (if serviceName = "" then cfg else { cfg with ServiceName := serviceName }) }

/-- A configuration that names its service. -/
def namedConfig : Config := { ServiceName := "svc-a", RPCMetrics := true }

/-- A configuration that names no service. -/
def unnamedConfig : Config := { RPCMetrics := true }

/-- A handler that sets the status -1 and returns. -/
def negativeStatusHandler : Request → Handler :=
  fun _ => Handler.WriteHeader (-1) (Handler.ret none)

/-- A handler that sets the status 70000 and returns. -/
def largeStatusHandler : Request → Handler :=
  fun _ => Handler.WriteHeader 70000 (Handler.ret none)

/-- A handler that sets the status 500, then 404, and writes one byte. -/
def twiceStatusHandler : Request → Handler :=
  fun _ => Handler.WriteHeader 500
    (Handler.WriteHeader 404 (Handler.Write [48] (fun _ _ => Handler.ret none)))

/-! ## Configuration translation -/

/-- C2: on the configuration `disabledConfig`, whose `Disabled` is true,
`ToTracingConfig` returns a backend configuration whose `Disabled` is false:
the flag is not carried over. -/
theorem toTracingConfig_disabled_lost :
    disabledConfig.Disabled = true ∧ disabledConfig.ToTracingConfig.Disabled = false := by
  constructor <;> rfl

/-- C9: on the configuration `flagsConfig`, whose `RPCMetrics` and `Gen128Bit`
are both true, `ToTracingConfig` carries `RPCMetrics` over but returns
`Gen128Bit` false. -/
theorem toTracingConfig_gen128Bit_lost :
    flagsConfig.Gen128Bit = true ∧ flagsConfig.ToTracingConfig.Gen128Bit = false ∧
      flagsConfig.ToTracingConfig.RPCMetrics = flagsConfig.RPCMetrics := by
  refine ⟨rfl, rfl, rfl⟩

/-- The scalar fields of the result of `ToTracingConfig`, whatever the blocks. -/
theorem toTracingConfig_scalars (c : Config) :
    c.ToTracingConfig.ServiceName = c.ServiceName ∧ c.ToTracingConfig.Disabled = false ∧
      c.ToTracingConfig.RPCMetrics = c.RPCMetrics ∧ c.ToTracingConfig.Gen128Bit = false := by
  obtain ⟨n, d, m, g, s, r, h, b, t⟩ := c
  cases s <;> cases r <;> cases h <;> cases b <;> cases t <;>
    exact ⟨rfl, rfl, rfl, rfl⟩

/-- C8: for every configuration and each of the five nested blocks, the block
of the result of `ToTracingConfig` is nil exactly when the block of the
configuration is nil, and when the block is present every field of the result
block equals the field of the same name of the configuration's block. -/
theorem toTracingConfig_blocks (c : Config) :
    ((c.ToTracingConfig.Sampler = none ↔ c.Sampler = none) ∧
      ∀ s, c.Sampler = some s → ∃ s', c.ToTracingConfig.Sampler = some s' ∧
        s'.Type_ = s.Type_ ∧ s'.Param = s.Param ∧
        s'.SamplingServerURL = s.SamplingServerURL ∧
        s'.SamplingRefreshInterval = s.SamplingRefreshInterval ∧
        s'.MaxOperations = s.MaxOperations ∧
        s'.OperationNameLateBinding = s.OperationNameLateBinding) ∧
    ((c.ToTracingConfig.Reporter = none ↔ c.Reporter = none) ∧
      ∀ r, c.Reporter = some r → ∃ r', c.ToTracingConfig.Reporter = some r' ∧
        r'.QueueSize = r.QueueSize ∧ r'.BufferFlushInterval = r.BufferFlushInterval ∧
        r'.LogSpans = r.LogSpans ∧ r'.LocalAgentHostPort = r.LocalAgentHostPort ∧
        r'.DisableAttemptReconnecting = r.DisableAttemptReconnecting ∧
        r'.AttemptReconnectInterval = r.AttemptReconnectInterval ∧
        r'.CollectorEndpoint = r.CollectorEndpoint ∧ r'.User = r.User ∧
        r'.Password = r.Password ∧ r'.HTTPHeaders = r.HTTPHeaders) ∧
    ((c.ToTracingConfig.Headers = none ↔ c.Headers = none) ∧
      ∀ h, c.Headers = some h → ∃ h', c.ToTracingConfig.Headers = some h' ∧
        h'.JaegerDebugHeader = h.JaegerDebugHeader ∧
        h'.JaegerBaggageHeader = h.JaegerBaggageHeader ∧
        h'.TraceContextHeaderName = h.TraceContextHeaderName ∧
        h'.TraceBaggageHeaderPrefix = h.TraceBaggageHeaderPrefix) ∧
    ((c.ToTracingConfig.BaggageRestrictions = none ↔ c.BaggageRestrictions = none) ∧
      ∀ b, c.BaggageRestrictions = some b →
        ∃ b', c.ToTracingConfig.BaggageRestrictions = some b' ∧
        b'.DenyBaggageOnInitializationFailure = b.DenyBaggageOnInitializationFailure ∧
        b'.HostPort = b.HostPort ∧ b'.RefreshInterval = b.RefreshInterval) ∧
    ((c.ToTracingConfig.Throttler = none ↔ c.Throttler = none) ∧
      ∀ t, c.Throttler = some t → ∃ t', c.ToTracingConfig.Throttler = some t' ∧
        t'.HostPort = t.HostPort ∧ t'.RefreshInterval = t.RefreshInterval ∧
        t'.SynchronousInitialization = t.SynchronousInitialization) := by
  obtain ⟨n, d, m, g, s, r, h, b, t⟩ := c
  cases s <;> cases r <;> cases h <;> cases b <;> cases t <;>
    simp [Config.ToTracingConfig]

/-! ## Go `int` arithmetic -/

/-- A value a Go `int` can hold is left alone by the wrap-around. -/
theorem wrapInt_of_inRange (x : Int) (h : InIntRange x) : wrapInt x = x := by
  unfold InIntRange at h
  unfold wrapInt
  omega

/-- Wrapping an intermediate sum does not change the wrapped total. -/
theorem wrapInt_add_wrapInt (a b : Int) : wrapInt (wrapInt a + b) = wrapInt (a + b) := by
  unfold wrapInt
  omega

/-- The wrap-around gives a value a Go `int` can hold. -/
theorem wrapInt_inRange (x : Int) : InIntRange (wrapInt x) := by
  unfold InIntRange wrapInt
  omega

/-! ## The response metrics wrapper -/

/-- A sequence of `Write` calls leaves the status alone. -/
theorem writeAll_status (sink : Sink) (bs : List Bytes) (w : metricsTracker) :
    (w.WriteAll sink bs).2.status = w.status := by
  induction bs generalizing w with
  | nil => simp [metricsTracker.WriteAll]
  | cons b bs ih =>
    simp [metricsTracker.WriteAll, ih, metricsTracker.Write]

/-- The calls forwarded by a sequence of `Write` calls, for any tracker. -/
theorem writeAll_forwarded (sink : Sink) (bs : List Bytes) (w : metricsTracker) :
    (w.WriteAll sink bs).2.ResponseWriter = w.ResponseWriter ++ bs.map Call.Write := by
  induction bs generalizing w with
  | nil => simp [metricsTracker.WriteAll]
  | cons b bs ih =>
    simp [metricsTracker.WriteAll, ih, metricsTracker.Write]

/-- The results of a sequence of `Write` calls, for any tracker. -/
theorem writeAll_results (sink : Sink) (bs : List Bytes) (w : metricsTracker) :
    (w.WriteAll sink bs).1 = (sink.WriteAll w.ResponseWriter bs).1 := by
  induction bs generalizing w with
  | nil => simp [metricsTracker.WriteAll, Sink.WriteAll]
  | cons b bs ih =>
    simp [metricsTracker.WriteAll, Sink.WriteAll, ih, metricsTracker.Write]

/-- The size after a sequence of `Write` calls, for any tracker whose size is
a Go `int`. -/
theorem writeAll_size (sink : Sink) (bs : List Bytes) (w : metricsTracker)
    (hw : InIntRange w.size) :
    (w.WriteAll sink bs).2.size =
      wrapInt (w.size + ((w.WriteAll sink bs).1.map Prod.fst).sum) := by
  induction bs generalizing w with
  | nil =>
    simp [metricsTracker.WriteAll, wrapInt_of_inRange _ hw]
  | cons b bs ih =>
    simp only [metricsTracker.WriteAll, List.map_cons, List.sum_cons]
    rw [ih _ (by simp only [metricsTracker.Write]; exact wrapInt_inRange _)]
    simp only [metricsTracker.Write]
    rw [wrapInt_add_wrapInt, Int.add_assoc]

/-- C6: for every sequence of `Write` calls made on a `metricsTracker` that
starts with size 0, whatever the underlying writer does: the underlying writer
receives exactly those slices, once each and in the same order, after the
calls it had received before; every call returns the `(count, error)` pair the
underlying `Write` returned; and afterwards `size` is the sum of the returned
counts, failed calls included, as a Go `int` (the sum itself whenever it is
a value a Go `int` can hold), while `status` is untouched. -/
theorem metricsTracker_writeAll (sink : Sink) (hist : List Call) (status : Int)
    (bs : List Bytes) :
    (({ ResponseWriter := hist, status := status, size := 0 } : metricsTracker).WriteAll
        sink bs).2.ResponseWriter = hist ++ bs.map Call.Write ∧
    (({ ResponseWriter := hist, status := status, size := 0 } : metricsTracker).WriteAll
        sink bs).1 = (sink.WriteAll hist bs).1 ∧
    (({ ResponseWriter := hist, status := status, size := 0 } : metricsTracker).WriteAll
        sink bs).2.size = wrapInt (((sink.WriteAll hist bs).1.map Prod.fst).sum) ∧
    (InIntRange (((sink.WriteAll hist bs).1.map Prod.fst).sum) →
      (({ ResponseWriter := hist, status := status, size := 0 } : metricsTracker).WriteAll
        sink bs).2.size = ((sink.WriteAll hist bs).1.map Prod.fst).sum) ∧
    (({ ResponseWriter := hist, status := status, size := 0 } : metricsTracker).WriteAll
        sink bs).2.status = status := by
  have hsize := writeAll_size sink bs
    { ResponseWriter := hist, status := status, size := 0 } (by unfold InIntRange; simp)
  have hres := writeAll_results sink bs { ResponseWriter := hist, status := status, size := 0 }
  simp only at hres
  rw [hres] at hsize
  simp only [Int.zero_add] at hsize
  refine ⟨writeAll_forwarded sink bs _, hres, hsize, ?_, writeAll_status sink bs _⟩
  intro h
  rw [hsize, wrapInt_of_inRange _ h]

/-! ## The span lifecycle middleware -/

/-- The last element of a list that ends in a given element. -/
theorem getLast?_snoc {α : Type} (l : List α) (a : α) : (l ++ [a]).getLast? = some a := by
  simp

/-- The outcome of a traced request, spelled out. -/
theorem serveHTTP_traced (tracing : Opentracing) (sink : Sink) (w : List Call)
    (r : Request) (next : Request → Handler) (hf : tracing.opts.spanFilter r = true) :
    tracing.ServeHTTP sink w r next =
      { err := (delegated tracing sink w r next).1
        trace :=
          [ Event.Extract r.Header,
            Event.StartSpan (tracing.opts.opNameFunc r) (tracing.tr.Extract r.Header),
            Event.SetTag ext.HTTPMethod (TagValue.string r.Method),
            Event.SetTag ext.HTTPUrl (TagValue.string (tracing.opts.urlTagFunc r.URL)),
            Event.SetTag ext.Component (TagValue.string
              (if tracing.opts.componentName = "" then defaultComponentName
                else tracing.opts.componentName)),
            Event.spanObserver (tracing.opts.spanObserver
              { operationName := tracing.opts.opNameFunc r
                parent := tracing.tr.Extract r.Header } r),
            Event.next true (tracedRequest tracing r) ] ++
          postTags (delegated tracing sink w r next).2 ++ [Event.Finish]
        w := (delegated tracing sink w r next).2.ResponseWriter } := by
  simp [Opentracing.ServeHTTP, hf, delegated, tracedRequest]

/-- The tags written after delegation are neither `StartSpan` nor `Finish`. -/
theorem postTags_filter (mt : metricsTracker) :
    (postTags mt).filter Event.isStartSpan = [] ∧ (postTags mt).filter Event.isFinish = [] := by
  unfold postTags
  split_ifs <;> simp [Event.isStartSpan, Event.isFinish]

/-- The error tag among the tags written after delegation. -/
theorem postTags_error (mt : metricsTracker) (v : TagValue) :
    Event.SetTag ext.Error v ∈ postTags mt ↔ (v = TagValue.bool true ∧ 500 ≤ mt.status) := by
  unfold postTags
  split_ifs <;>
    simp_all [ext.Error, ext.HTTPStatusCode, responseSizeKey, StatusInternalServerError]

/-- C1: for every request on which the span filter returns true, whatever the
downstream handler does and whether it returns nil or an error, the calls of
`ServeHTTP` contain exactly one `StartSpan` and exactly one `Finish`, the
`Finish` is the last call and the `StartSpan` comes before it. -/
theorem serveHTTP_start_finish_once (tracing : Opentracing) (sink : Sink) (w : List Call)
    (r : Request) (next : Request → Handler) (hf : tracing.opts.spanFilter r = true) :
    ((tracing.ServeHTTP sink w r next).trace.filter Event.isStartSpan).length = 1 ∧
    ((tracing.ServeHTTP sink w r next).trace.filter Event.isFinish).length = 1 ∧
    ∃ before between,
      (tracing.ServeHTTP sink w r next).trace =
        before ++ [Event.StartSpan (tracing.opts.opNameFunc r) (tracing.tr.Extract r.Header)] ++
          between ++ [Event.Finish] := by
  rw [serveHTTP_traced tracing sink w r next hf]
  obtain ⟨h1, h2⟩ := postTags_filter (delegated tracing sink w r next).2
  refine ⟨?_, ?_, [Event.Extract r.Header], _, rfl⟩
  · simp [List.filter_cons, Event.isStartSpan, h1]
  · simp [List.filter_cons, Event.isFinish, h2]

/-- C1 at a request whose handler returns an error. -/
theorem serveHTTP_start_finish_once_witness :
    tracingAll.opts.spanFilter getItems = true ∧
    (tracingAll.ServeHTTP wholeSink [] getItems failingHandler).err ≠ none ∧
    ((tracingAll.ServeHTTP wholeSink [] getItems failingHandler).trace.filter
      Event.isStartSpan).length = 1 ∧
    ((tracingAll.ServeHTTP wholeSink [] getItems failingHandler).trace.filter
      Event.isFinish).length = 1 ∧
    ∃ before between,
      (tracingAll.ServeHTTP wholeSink [] getItems failingHandler).trace =
        before ++ [Event.StartSpan (tracingAll.opts.opNameFunc getItems)
          (tracingAll.tr.Extract getItems.Header)] ++ between ++ [Event.Finish] :=
  ⟨rfl, by decide,
    serveHTTP_start_finish_once tracingAll wholeSink [] getItems failingHandler rfl⟩

/-- C3, as stated, fails: on `GET /items` with a handler that sets no status
and returns an error, the request is traced, the observed status is 0, the
error is returned, and no error tag is among the calls of `ServeHTTP`. -/
theorem serveHTTP_error_without_status_untagged :
    tracingAll.opts.spanFilter getItems = true ∧
    (delegated tracingAll wholeSink [] getItems failingHandler).2.status = 0 ∧
    (tracingAll.ServeHTTP wholeSink [] getItems failingHandler).err =
      some "upstream unreachable" ∧
    Event.SetTag ext.Error (TagValue.bool true) ∉
      (tracingAll.ServeHTTP wholeSink [] getItems failingHandler).trace := by
  decide

/-- C3, amended: for every traced request in which the observed status is 0
and the downstream handler returns an error, `ServeHTTP` writes no error tag at
all; it still finishes the span as its last call and returns that error. -/
theorem serveHTTP_error_without_status (tracing : Opentracing) (sink : Sink) (w : List Call)
    (r : Request) (next : Request → Handler) (e : GoError)
    (hf : tracing.opts.spanFilter r = true)
    (hstatus : (delegated tracing sink w r next).2.status = 0)
    (herr : (delegated tracing sink w r next).1 = some e) :
    (∀ v, Event.SetTag ext.Error v ∉ (tracing.ServeHTTP sink w r next).trace) ∧
    (tracing.ServeHTTP sink w r next).trace.getLast? = some Event.Finish ∧
    (tracing.ServeHTTP sink w r next).err = some e := by
  rw [serveHTTP_traced tracing sink w r next hf]
  refine ⟨?_, getLast?_snoc _ _, herr⟩
  intro v hv
  have hpost := postTags_error (delegated tracing sink w r next).2 v
  simp [ext.Error, ext.HTTPMethod, ext.HTTPUrl, ext.Component] at hv
  rw [ext.Error] at hpost
  have := (hpost.mp hv).2
  omega

/-- C3, amended, at `GET /items` with the failing handler. -/
theorem serveHTTP_error_without_status_witness :
    (∀ v, Event.SetTag ext.Error v ∉
      (tracingAll.ServeHTTP wholeSink [] getItems failingHandler).trace) ∧
    (tracingAll.ServeHTTP wholeSink [] getItems failingHandler).trace.getLast? =
      some Event.Finish ∧
    (tracingAll.ServeHTTP wholeSink [] getItems failingHandler).err =
      some "upstream unreachable" :=
  serveHTTP_error_without_status tracingAll wholeSink [] getItems failingHandler
    "upstream unreachable" rfl rfl rfl

/-- C4: for every traced request, the error tag with value true is among the
calls of `ServeHTTP` exactly when the observed status is at least 500, and
when the observed status is below 500 no error tag of any value is written. -/
theorem serveHTTP_error_tag (tracing : Opentracing) (sink : Sink) (w : List Call)
    (r : Request) (next : Request → Handler) (hf : tracing.opts.spanFilter r = true) :
    (Event.SetTag ext.Error (TagValue.bool true) ∈ (tracing.ServeHTTP sink w r next).trace ↔
      500 ≤ (delegated tracing sink w r next).2.status) ∧
    ((delegated tracing sink w r next).2.status < 500 →
      ∀ v, Event.SetTag ext.Error v ∉ (tracing.ServeHTTP sink w r next).trace) := by
  rw [serveHTTP_traced tracing sink w r next hf]
  have hpost := postTags_error (delegated tracing sink w r next).2
  rw [ext.Error] at hpost
  constructor
  · simp [ext.Error, ext.HTTPMethod, ext.HTTPUrl, ext.Component, hpost]
  · intro hlt v hv
    simp [ext.Error, ext.HTTPMethod, ext.HTTPUrl, ext.Component, hpost] at hv
    omega

/-- C4 at a request answered 503. -/
theorem serveHTTP_error_tag_witness :
    (delegated tracingAll wholeSink [] getItems unavailableHandler).2.status = 503 ∧
    (Event.SetTag ext.Error (TagValue.bool true) ∈
        (tracingAll.ServeHTTP wholeSink [] getItems unavailableHandler).trace ↔
      500 ≤ (delegated tracingAll wholeSink [] getItems unavailableHandler).2.status) ∧
    ((delegated tracingAll wholeSink [] getItems unavailableHandler).2.status < 500 →
      ∀ v, Event.SetTag ext.Error v ∉
        (tracingAll.ServeHTTP wholeSink [] getItems unavailableHandler).trace) :=
  ⟨rfl, serveHTTP_error_tag tracingAll wholeSink [] getItems unavailableHandler rfl⟩

/-- C5: for every request on which the span filter returns false, the only
call `ServeHTTP` makes is one call of `next.ServeHTTP` with the original writer
and the original request, so no call on the tracer or on a span; it returns
what that call returns, and the underlying writer receives what the handler
alone sends it. -/
theorem serveHTTP_filtered_out (tracing : Opentracing) (sink : Sink) (w : List Call)
    (r : Request) (next : Request → Handler) (hf : tracing.opts.spanFilter r = false) :
    (tracing.ServeHTTP sink w r next).trace = [Event.next false r] ∧
    (∀ e ∈ (tracing.ServeHTTP sink w r next).trace, e.isTracing = false) ∧
    (tracing.ServeHTTP sink w r next).err = ((next r).serveRaw sink w).1 ∧
    (tracing.ServeHTTP sink w r next).w = ((next r).serveRaw sink w).2 := by
  simp [Opentracing.ServeHTTP, hf, Event.isTracing]

/-- C5 at a module whose filter rejects every request. -/
theorem serveHTTP_filtered_out_witness :
    (tracingNone.ServeHTTP shortSink [] getItems okHandler).trace =
      [Event.next false getItems] ∧
    (∀ e ∈ (tracingNone.ServeHTTP shortSink [] getItems okHandler).trace,
      e.isTracing = false) ∧
    (tracingNone.ServeHTTP shortSink [] getItems okHandler).err =
      ((okHandler getItems).serveRaw shortSink []).1 ∧
    (tracingNone.ServeHTTP shortSink [] getItems okHandler).w =
      ((okHandler getItems).serveRaw shortSink []).2 :=
  serveHTTP_filtered_out tracingNone shortSink [] getItems okHandler rfl

/-- C7: for every traced request, `ServeHTTP` returns what `next.ServeHTTP`
returned, nil or the same error, whatever status and size were observed. -/
theorem serveHTTP_returns_next_error (tracing : Opentracing) (sink : Sink) (w : List Call)
    (r : Request) (next : Request → Handler) (hf : tracing.opts.spanFilter r = true) :
    (tracing.ServeHTTP sink w r next).err =
      ((next (tracedRequest tracing r)).serveTracked sink
        { ResponseWriter := w, status := 0, size := 0 }).1 := by
  rw [serveHTTP_traced tracing sink w r next hf]
  rfl

/-- C7 at a request answered 503 whose handler returns an error. -/
theorem serveHTTP_returns_next_error_witness :
    (tracingAll.ServeHTTP wholeSink [] getItems unavailableHandler).err = some "unavailable" ∧
    (tracingAll.ServeHTTP wholeSink [] getItems unavailableHandler).err =
      ((unavailableHandler (tracedRequest tracingAll getItems)).serveTracked wholeSink
        { ResponseWriter := [], status := 0, size := 0 }).1 :=
  ⟨rfl, serveHTTP_returns_next_error tracingAll wholeSink [] getItems unavailableHandler rfl⟩

/-! ## Provisioning -/

/-- C10: let `FromEnv` succeed on the translated configuration and put the
environment's service name `envName` where the configuration has none, and let
`New` construct the tracer, by `NewTracer`, for the configuration it is called
on with a non-empty `serviceName` argument in place of its `ServiceName`. Then
`Provision` constructs the tracer for the configured name when that is not
empty, otherwise for `envName` when that is not empty, otherwise for the fixed
name `caddy`, which is `defaultServiceName`. -/
theorem provision_service_name (lib : Backend)
    (NewTracer : jaeger.Configuration → Except GoError (Tracer × Closer))
    (c : Config) (envName : String) (cfgEnv : jaeger.Configuration)
    (hFromEnv : lib.FromEnv c.ToTracingConfig = .ok cfgEnv)
    (hEnv : c.ServiceName = "" → cfgEnv.ServiceName = envName)
    (hNew : ∀ cfg serviceName, lib.New cfg serviceName =
      NewTracer (if serviceName = "" then cfg else { cfg with ServiceName := serviceName })) :
    Provision lib c =
      (NewTracer
        { cfgEnv with
          ServiceName :=
            if c.ServiceName ≠ "" then c.ServiceName
            else if envName ≠ "" then envName
            else "caddy" }).map
        (fun p => { Config := c, tr := p.1, opts := provisionedOptions, closer := p.2 }) ∧
    defaultServiceName = "caddy" := by
  refine ⟨?_, rfl⟩
  unfold Provision
  rw [hFromEnv]
  simp only [hNew]
  by_cases hc : c.ServiceName = ""
  · have he := hEnv hc
    subst he
    by_cases hn : cfgEnv.ServiceName = ""
    · simp only [hc, hn, ne_eq, not_true_eq_false, if_true, if_false, defaultServiceName]
      cases NewTracer { cfgEnv with ServiceName := "caddy" } <;> rfl
    · simp only [hc, hn, ne_eq, not_true_eq_false, not_false_eq_true, if_true, if_false]
      cases NewTracer cfgEnv <;> rfl
  · simp only [hc, ne_eq, not_false_eq_true, if_true, if_false]
    by_cases hn : cfgEnv.ServiceName = ""
    · simp only [hn, if_true]
      cases NewTracer { cfgEnv with ServiceName := c.ServiceName } <;> rfl
    · simp only [hn, if_false]
      cases NewTracer { cfgEnv with ServiceName := c.ServiceName } <;> rfl

/-- C10 on its three branches. A configuration that names no service, in an
environment that names none either, gets its tracer constructed, for `caddy`;
the same configuration in an environment whose service name is `edge-proxy`
gets it for `edge-proxy`; a configuration that names `svc-a` gets it for
`svc-a` in that environment too. -/
theorem provision_service_name_witness :
    ((Provision (envBackend "") unnamedConfig).toOption.isSome = true ∧
      Provision (envBackend "") unnamedConfig =
        (namedNewTracer { unnamedConfig.ToTracingConfig with ServiceName := "caddy" }).map
          (fun p =>
            { Config := unnamedConfig, tr := p.1, opts := provisionedOptions,
              closer := p.2 })) ∧
    Provision (envBackend "edge-proxy") unnamedConfig =
      (namedNewTracer { unnamedConfig.ToTracingConfig with ServiceName := "edge-proxy" }).map
        (fun p =>
          { Config := unnamedConfig, tr := p.1, opts := provisionedOptions,
            closer := p.2 }) ∧
    Provision (envBackend "edge-proxy") namedConfig =
      (namedNewTracer { namedConfig.ToTracingConfig with ServiceName := "svc-a" }).map
        (fun p =>
          { Config := namedConfig, tr := p.1, opts := provisionedOptions, closer := p.2 }) :=
  ⟨⟨rfl,
      (provision_service_name (envBackend "") namedNewTracer unnamedConfig ""
        unnamedConfig.ToTracingConfig rfl (fun _ => rfl) (fun _ _ => rfl)).1⟩,
    (provision_service_name (envBackend "edge-proxy") namedNewTracer unnamedConfig "edge-proxy"
      { unnamedConfig.ToTracingConfig with ServiceName := "edge-proxy" } rfl (fun _ => rfl)
      (fun _ _ => rfl)).1,
    (provision_service_name (envBackend "edge-proxy") namedNewTracer namedConfig "edge-proxy"
      { namedConfig.ToTracingConfig with ServiceName := "edge-proxy" } rfl
      (fun h => absurd h (by decide)) (fun _ _ => rfl)).1⟩

/-! ## Order of the calls and the observed status -/

/-- Nothing follows the `Finish` of a list of calls that ends in its only
`Finish`. -/
theorem nothing_after_finish (l : List Event) (hlast : l.getLast? = some Event.Finish)
    (hcount : (l.filter Event.isFinish).length = 1) (before after : List Event)
    (h : l = before ++ Event.Finish :: after) : after = [] := by
  subst h
  by_contra hne
  have hmem : Event.Finish ∈ after := by
    rw [List.getLast?_append_of_ne_nil _ (List.cons_ne_nil _ _)] at hlast
    obtain ⟨e, rest, rfl⟩ := List.exists_cons_of_ne_nil hne
    rw [List.getLast?_cons_cons] at hlast
    exact List.mem_of_getLast?_eq_some hlast
  have hfil : Event.Finish ∈ after.filter Event.isFinish :=
    List.mem_filter.mpr ⟨hmem, rfl⟩
  have hpos : 0 < (after.filter Event.isFinish).length := List.length_pos_of_mem hfil
  simp [List.filter_append, List.filter_cons, Event.isFinish] at hcount
  omega

/-- The tracker after a handler has run: the underlying writer has received
the handler's calls, and the status is the code of its last `WriteHeader`. -/
theorem serveTracked_calls (sink : Sink) (h : Handler) (mt : metricsTracker) :
    (h.serveTracked sink mt).2.ResponseWriter = mt.ResponseWriter ++ h.callsTracked sink mt ∧
    (h.serveTracked sink mt).2.status =
      (((h.callsTracked sink mt).filterMap Call.status?).getLast?).getD mt.status := by
  induction h generalizing mt with
  | ret err => simp [Handler.serveTracked, Handler.callsTracked]
  | WriteHeader status k ih =>
    obtain ⟨h1, h2⟩ := ih (mt.WriteHeader status)
    simp only [Handler.serveTracked, Handler.callsTracked]
    refine ⟨?_, ?_⟩
    · rw [h1]
      simp [metricsTracker.WriteHeader]
    · rw [h2, List.filterMap_cons_some (by rfl : Call.status? (Call.WriteHeader status) = some status),
        List.getLast?_cons]
      rfl
  | Write b k ih =>
    obtain ⟨h1, h2⟩ := ih (mt.Write sink b).1.1 (mt.Write sink b).1.2 (mt.Write sink b).2
    simp only [Handler.serveTracked, Handler.callsTracked]
    refine ⟨?_, ?_⟩
    · rw [h1]
      simp [metricsTracker.Write]
    · rw [h2, List.filterMap_cons_none (by rfl : Call.status? (Call.Write b) = none)]
      rfl

/-- C11: for every traced request the calls of `ServeHTTP` are, in this order:
`Extract`, `StartSpan`, the HTTP-method tag, the HTTP-URL tag, the component
tag (`defaultComponentName`, which is `caddy.module.opentracing`, when no
component name is configured), the span observer callback, the call of
`next.ServeHTTP`, then the status tag, the response-size tag and the error tag,
each under its own guard, then `Finish`; and nothing follows a `Finish`. -/
theorem serveHTTP_call_order (tracing : Opentracing) (sink : Sink) (w : List Call)
    (r : Request) (next : Request → Handler) (hf : tracing.opts.spanFilter r = true) :
    (tracing.ServeHTTP sink w r next).trace =
      [ Event.Extract r.Header,
        Event.StartSpan (tracing.opts.opNameFunc r) (tracing.tr.Extract r.Header),
        Event.SetTag ext.HTTPMethod (TagValue.string r.Method),
        Event.SetTag ext.HTTPUrl (TagValue.string (tracing.opts.urlTagFunc r.URL)),
        Event.SetTag ext.Component (TagValue.string
          (if tracing.opts.componentName = "" then defaultComponentName
            else tracing.opts.componentName)),
        Event.spanObserver (tracing.opts.spanObserver
          { operationName := tracing.opts.opNameFunc r
            parent := tracing.tr.Extract r.Header } r),
        Event.next true (tracedRequest tracing r) ] ++
      (if 0 < (delegated tracing sink w r next).2.status then
        [Event.SetTag ext.HTTPStatusCode
          (TagValue.uint16 ((delegated tracing sink w r next).2.status % 65536).toNat)]
        else []) ++
      (if 0 < (delegated tracing sink w r next).2.size then
        [Event.SetTag responseSizeKey (TagValue.int (delegated tracing sink w r next).2.size)]
        else []) ++
      (if 500 ≤ (delegated tracing sink w r next).2.status then
        [Event.SetTag ext.Error (TagValue.bool true)] else []) ++
      [Event.Finish] ∧
    defaultComponentName = "caddy.module.opentracing" ∧
    ∀ before after,
      (tracing.ServeHTTP sink w r next).trace = before ++ Event.Finish :: after →
        after = [] := by
  rw [serveHTTP_traced tracing sink w r next hf]
  refine ⟨?_, rfl, ?_⟩
  · simp only [postTags, StatusInternalServerError, gt_iff_lt, ge_iff_le, List.append_assoc]
  · intro before after h
    obtain ⟨-, h2⟩ := postTags_filter (delegated tracing sink w r next).2
    refine nothing_after_finish _ (getLast?_snoc _ _) ?_ before after h
    simp [List.filter_cons, Event.isFinish, h2]

/-- C11 at `GET /items` answered 200 with three bytes: the calls, one by one. -/
theorem serveHTTP_call_order_witness :
    (tracingAll.ServeHTTP wholeSink [] getItems okHandler).trace =
      [ Event.Extract [],
        Event.StartSpan "GET /items" none,
        Event.SetTag "http.method" (TagValue.string "GET"),
        Event.SetTag "http.url" (TagValue.string "http://example.test/items?page=2"),
        Event.SetTag "component" (TagValue.string "caddy.module.opentracing"),
        Event.spanObserver [],
        Event.next true
          { getItems with ctxSpan := some { operationName := "GET /items", parent := none } },
        Event.SetTag "http.status_code" (TagValue.uint16 200),
        Event.SetTag "http.response_size" (TagValue.int 3),
        Event.Finish ] :=
  (serveHTTP_call_order tracingAll wholeSink [] getItems okHandler rfl).1.trans (by decide)

/-- C12, as stated, fails twice: a handler that sets the status -1 leaves a
non-zero observed status and no HTTP-status tag; a handler that sets the
status 70000 gets the HTTP-status tag with the value 4464. -/
theorem serveHTTP_status_tag_not_exact :
    (tracingAll.opts.spanFilter getItems = true ∧
      (delegated tracingAll wholeSink [] getItems negativeStatusHandler).2.status = -1 ∧
      (tracingAll.ServeHTTP wholeSink [] getItems negativeStatusHandler).trace.filter
        Event.isStatusTag = []) ∧
    ((delegated tracingAll wholeSink [] getItems largeStatusHandler).2.status = 70000 ∧
      (tracingAll.ServeHTTP wholeSink [] getItems largeStatusHandler).trace.filter
        Event.isStatusTag = [Event.SetTag ext.HTTPStatusCode (TagValue.uint16 4464)]) := by
  decide

/-- The status tag among the tags written after delegation. -/
theorem postTags_status (mt : metricsTracker) (v : TagValue) :
    Event.SetTag ext.HTTPStatusCode v ∈ postTags mt ↔
      (0 < mt.status ∧ v = TagValue.uint16 (mt.status % 65536).toNat) := by
  unfold postTags
  split_ifs <;>
    simp_all [ext.Error, ext.HTTPStatusCode, responseSizeKey, StatusInternalServerError]

/-- C12, amended: for every traced request the observed status is the code of
the last `WriteHeader` call the downstream handler made (0 if it made none);
the underlying writer receives every call of the handler, `WriteHeader` calls
with the same code, in order; and `ServeHTTP` writes the HTTP-status tag
exactly when the observed status is greater than zero, with the value
`uint16` of the status, its remainder modulo 65536, which is the status itself
when that is below 65536. -/
theorem serveHTTP_status_tag (tracing : Opentracing) (sink : Sink) (w : List Call)
    (r : Request) (next : Request → Handler) (hf : tracing.opts.spanFilter r = true) :
    (delegated tracing sink w r next).2.status =
      ((((next (tracedRequest tracing r)).callsTracked sink
        { ResponseWriter := w, status := 0, size := 0 }).filterMap Call.status?).getLast?).getD 0 ∧
    (tracing.ServeHTTP sink w r next).w =
      w ++ (next (tracedRequest tracing r)).callsTracked sink
        { ResponseWriter := w, status := 0, size := 0 } ∧
    (∀ v, Event.SetTag ext.HTTPStatusCode v ∈ (tracing.ServeHTTP sink w r next).trace ↔
      (0 < (delegated tracing sink w r next).2.status ∧
        v = TagValue.uint16 ((delegated tracing sink w r next).2.status % 65536).toNat)) ∧
    (0 < (delegated tracing sink w r next).2.status →
      (delegated tracing sink w r next).2.status < 65536 →
      ((((delegated tracing sink w r next).2.status % 65536).toNat : Nat) : Int) =
        (delegated tracing sink w r next).2.status) := by
  rw [serveHTTP_traced tracing sink w r next hf]
  obtain ⟨h1, h2⟩ := serveTracked_calls sink (next (tracedRequest tracing r))
    { ResponseWriter := w, status := 0, size := 0 }
  refine ⟨h2, h1, ?_, ?_⟩
  · intro v
    have hpost := postTags_status (delegated tracing sink w r next).2 v
    rw [ext.HTTPStatusCode] at hpost
    simp [ext.HTTPStatusCode, ext.HTTPMethod, ext.HTTPUrl, ext.Component, hpost]
  · intro hpos hlt
    omega

/-- C12, amended, at a handler that sets the status 500 and then 404. -/
theorem serveHTTP_status_tag_witness :
    (delegated tracingAll wholeSink [] getItems twiceStatusHandler).2.status = 404 ∧
    (tracingAll.ServeHTTP wholeSink [] getItems twiceStatusHandler).w =
      [Call.WriteHeader 500, Call.WriteHeader 404, Call.Write [48]] ∧
    (∀ v, Event.SetTag ext.HTTPStatusCode v ∈
        (tracingAll.ServeHTTP wholeSink [] getItems twiceStatusHandler).trace ↔
      (0 < (delegated tracingAll wholeSink [] getItems twiceStatusHandler).2.status ∧
        v = TagValue.uint16
          ((delegated tracingAll wholeSink [] getItems twiceStatusHandler).2.status %
            65536).toNat)) :=
  ⟨rfl,
    (serveHTTP_status_tag tracingAll wholeSink [] getItems twiceStatusHandler rfl).2.1.trans
      (by decide),
    (serveHTTP_status_tag tracingAll wholeSink [] getItems twiceStatusHandler rfl).2.2.1⟩

end CaddyOpentracing
